import Mathlib

/-!
Verification of the HuggingFace fine-tuning orchestrator
(`src/huggingface/base.py`, class `HuggingFaceFineTuner`).

The development shallowly embeds:
* `os.path.join` restricted to two POSIX path components, as used by the
  orchestrator (`os_path_join`);
* the metric helpers used by `compute_metrics`: `np.argmax(·, axis=1)`
  per row (`argmax`), `sklearn.metrics.accuracy_score`
  (`accuracy_score`) and the three relevant components of
  `sklearn.metrics.precision_recall_fscore_support(·, ·, average="binary")`
  (`precision_score`, `recall_score`, `f1_score`), over rationals;
* the orchestration flow of `fine_tune` (together with its helpers
  `load_models`, `preprocess_data`, `upload_to_hf_hub`) as a function of
  an environment describing the outcome of every delegated external
  operation; the function returns the run result (normal return or
  propagated exception message) together with the trace of calls made to
  the collaborators, including every `set_state` write.
-/

namespace HF

/-- Python `os.path.join(a, b)` for POSIX paths: if `b` is absolute it
discards `a`; otherwise it concatenates, inserting `/` unless `a` is empty
or already ends with `/`.  The prefix and suffix tests are phrased on the
character list of the strings. -/
def os_path_join (a b : String) : String :=
  if b.data.head? = some '/' then b
  else if a.data = [] ∨ a.data.getLast? = some '/' then a ++ b
  else a ++ "/" ++ b

/-- Python `str.lower()`, restricted to the ASCII range exercised by the
orchestrator's comparison against the literal `"local"`. -/
def pyLower (s : String) : String :=
  ⟨s.data.map Char.toLower⟩

/-! ## Metrics (`compute_metrics`, base.py lines 161-179) -/

/-- Index of the first maximal element of a row, tracking the running best
index and value; `np.argmax` returns the first occurrence of the maximum. -/
def argmaxAux : List ℚ → Nat → Nat → ℚ → Nat
  | [], _, best, _ => best
  | x :: rest, i, best, bv =>
    if bv < x then argmaxAux rest (i + 1) i x
    else argmaxAux rest (i + 1) best bv

/-- `np.argmax` of one row of the prediction matrix (first index attaining
the maximum; 0 on an empty row, which `numpy` rejects and the orchestrator
never produces for a two-column matrix). -/
def argmax : List ℚ → Nat
  | [] => 0
  | x :: rest => argmaxAux rest 1 0 x

/-- `sklearn.metrics.accuracy_score(y_true, y_pred)`: fraction of positions
where prediction equals label. -/
def accuracy_score (y_true y_pred : List Nat) : ℚ :=
  (((y_true.zip y_pred).countP fun q => q.1 == q.2 : Nat) : ℚ) /
    ((y_true.length : Nat) : ℚ)

/-- True positives for the binary average (positive class `1`). -/
def countTP (y_true y_pred : List Nat) : Nat :=
  (y_true.zip y_pred).countP fun q => q.1 == 1 && q.2 == 1

/-- False positives: predicted `1`, label not `1`. -/
def countFP (y_true y_pred : List Nat) : Nat :=
  (y_true.zip y_pred).countP fun q => q.1 != 1 && q.2 == 1

/-- False negatives: predicted not `1`, label `1`. -/
def countFN (y_true y_pred : List Nat) : Nat :=
  (y_true.zip y_pred).countP fun q => q.1 == 1 && q.2 != 1

/-- Component 0 of `precision_recall_fscore_support(·, ·, average="binary")`:
`TP / (TP + FP)`, and 0 when the denominator is 0 (sklearn's
`zero_division` behaviour; rational division by zero is 0). -/
def precision_score (y_true y_pred : List Nat) : ℚ :=
  ((countTP y_true y_pred : Nat) : ℚ) /
    (((countTP y_true y_pred : Nat) : ℚ) + ((countFP y_true y_pred : Nat) : ℚ))

/-- Component 1 of `precision_recall_fscore_support(·, ·, average="binary")`:
`TP / (TP + FN)`, and 0 when the denominator is 0. -/
def recall_score (y_true y_pred : List Nat) : ℚ :=
  ((countTP y_true y_pred : Nat) : ℚ) /
    (((countTP y_true y_pred : Nat) : ℚ) + ((countFN y_true y_pred : Nat) : ℚ))

/-- Component 2 of `precision_recall_fscore_support(·, ·, average="binary")`:
the harmonic mean `2·P·R / (P + R)`, and 0 when `P + R = 0`. -/
def f1_score (y_true y_pred : List Nat) : ℚ :=
  2 * precision_score y_true y_pred * recall_score y_true y_pred /
    (precision_score y_true y_pred + recall_score y_true y_pred)

/-- The record returned by `compute_metrics`. -/
structure Metrics where
  accuracy : ℚ
  precision : ℚ
  «recall» : ℚ
  f1 : ℚ
  deriving DecidableEq, Repr

/-- `HuggingFaceFineTuner.compute_metrics` (base.py lines 161-179): derive
per-row argmax predictions from the raw scores, then the four binary
classification metrics against the labels. -/
def compute_metrics (predictions : List (List ℚ)) (labels : List Nat) : Metrics :=
  let preds := predictions.map argmax
  { accuracy := accuracy_score labels preds
    precision := precision_score labels preds
    «recall» := recall_score labels preds
    f1 := f1_score labels preds }


/-! ## Orchestration model (`fine_tune` and helpers, base.py lines 97-262)

Exceptions are modelled by their Python `str(e)` message (possibly empty:
`str(ValueError())` is `""`). Every delegated external operation is an
oracle supplied by an `Env`; the orchestrator's own control flow is
translated statement by statement from the source. Each run yields the
propagated result (`Except.ok` for normal return, `Except.error msg` for an
exception reaching the caller) and the trace of collaborator calls made,
in order, including every `set_state` write. -/

/-- The record passed to `state.set_state`: the failure write is
`{"success": False, "exception": str(e)}` and the success write is
`{"success": True}` (no exception field, modelled as `none`). -/
structure StateRecord where
  success : Bool
  exception : Option String := none
  deriving DecidableEq, Repr

/-- One collaborator call made during a run. -/
inductive Event where
  | copyFromRemote : Event
  | loadDatasetCall : String → Event
  | modelFromPretrained : String → Event
  | tokenizerFromPretrained : String → Event
  | trainerConstructed : Option Nat → Event
  | trainCall : Event
  | saveModelCall : Event
  | evaluateCall : Event
  | pushModelCall : Event
  | pushTokenizerCall : Event
  | setStateCall : StateRecord → Event
  deriving DecidableEq, Repr

/-- Outcome of every delegated external operation: either a value or the
message of the exception the operation raises.  Dataset, model and
tokenizer handles are opaque (`Nat` identifiers). -/
structure Env where
  inputPath : String
  copyFromRemote : Except String Unit
  loadDataset : String → Except String Nat
  modelFromPretrained : String → Except String Nat
  tokenizerFromPretrained : String → Except String Nat
  outputFolder : String
  trainingArgsInit : Except String Unit
  trainerInit : Except String Unit
  trainResult : Except String Unit
  saveResult : Except String Unit
  evaluateResult : Except String Unit
  pushModel : Except String Unit
  pushTokenizer : Except String Unit
  setState : StateRecord → Except String Unit

/-- The mutable instance attributes of `HuggingFaceFineTuner` used by the
run (`__init__`, base.py lines 63-76, plus the fields assigned at the top
of `fine_tune`, lines 213-225). -/
structure Tuner where
  model_name : String := ""
  tokenizer_name : String := ""
  model_class : String := "AutoModel"
  tokenizer_class : String := "AutoTokenizer"
  evalFlag : Bool := false
  hf_repo_id : Option String := none
  model : Option Nat := none
  tokenizer : Option Nat := none
  train_dataset : Option Nat := none
  eval_dataset : Option Nat := none
  deriving DecidableEq, Repr

/-- The parameters of `fine_tune` (base.py lines 181-195), with the
source's default values. -/
structure Params where
  model_name : String
  tokenizer_name : String
  num_train_epochs : Nat
  per_device_train_batch_size : Nat
  model_class : String := "AutoModel"
  tokenizer_class : String := "AutoTokenizer"
  evalFlag : Bool := false
  hf_repo_id : Option String := none
  hf_commit_message : Option String := none
  hf_token : Option String := none
  hf_private : Bool := true
  hf_create_pr : Bool := false
  deriving DecidableEq, Repr

/-- Python truthiness of `self.hf_repo_id` (line 256): `None` and the
empty string are falsy. -/
def truthy : Option String → Bool
  | none => false
  | some s => s != ""

/-- The identifier handed to `from_pretrained` for the model (base.py
lines 113-118): `os.path.join(self.input.get(), "/model")` when
`self.model_name.lower() == "local"`, otherwise the model name itself. -/
def modelSrc (t : Tuner) (env : Env) : String :=
  if pyLower t.model_name = "local" then os_path_join env.inputPath "/model"
  else t.model_name

/-- The identifier handed to `from_pretrained` for the tokenizer (base.py
lines 120-127). -/
def tokenizerSrc (t : Tuner) (env : Env) : String :=
  if pyLower t.tokenizer_name = "local" then os_path_join env.inputPath "/model"
  else t.tokenizer_name

/-- `HuggingFaceFineTuner.load_models` (base.py lines 110-130): load the
model, then the tokenizer; any exception is logged and re-raised. -/
def load_models (t : Tuner) (env : Env) : Except String Tuner × List Event :=
  match env.modelFromPretrained (modelSrc t env) with
  | .error e => (.error e, [.modelFromPretrained (modelSrc t env)])
  | .ok m =>
    match env.tokenizerFromPretrained (tokenizerSrc t env) with
    | .error e =>
      (.error e,
       [.modelFromPretrained (modelSrc t env),
        .tokenizerFromPretrained (tokenizerSrc t env)])
    | .ok tok =>
      (.ok { t with model := some m, tokenizer := some tok },
       [.modelFromPretrained (modelSrc t env),
        .tokenizerFromPretrained (tokenizerSrc t env)])

/-- `HuggingFaceFineTuner.preprocess_data` (base.py lines 97-108): copy the
input from remote, load `{path}/train`, and load `{path}/eval` only when
`self.eval` is set; any exception is logged and re-raised. -/
def preprocess_data (t : Tuner) (env : Env) : Except String Tuner × List Event :=
  match env.copyFromRemote with
  | .error e => (.error e, [.copyFromRemote])
  | .ok _ =>
    match env.loadDataset (os_path_join env.inputPath "train") with
    | .error e =>
      (.error e, [.copyFromRemote, .loadDatasetCall (os_path_join env.inputPath "train")])
    | .ok td =>
      if t.evalFlag then
        match env.loadDataset (os_path_join env.inputPath "eval") with
        | .error e =>
          (.error e,
           [.copyFromRemote, .loadDatasetCall (os_path_join env.inputPath "train"),
            .loadDatasetCall (os_path_join env.inputPath "eval")])
        | .ok ed =>
          (.ok { t with train_dataset := some td, eval_dataset := some ed },
           [.copyFromRemote, .loadDatasetCall (os_path_join env.inputPath "train"),
            .loadDatasetCall (os_path_join env.inputPath "eval")])
      else
        (.ok { t with train_dataset := some td },
         [.copyFromRemote, .loadDatasetCall (os_path_join env.inputPath "train")])

/-- `HuggingFaceFineTuner.upload_to_hf_hub` (base.py lines 132-159): push
the model if `self.model` is set, then the tokenizer if `self.tokenizer`
is set; any exception is logged and re-raised. -/
def upload_to_hf_hub (t : Tuner) (env : Env) : Except String Unit × List Event :=
  match t.model with
  | none =>
    match t.tokenizer with
    | none => (.ok (), [])
    | some _ => (env.pushTokenizer, [.pushTokenizerCall])
  | some _ =>
    match env.pushModel with
    | .error e => (.error e, [.pushModelCall])
    | .ok _ =>
      match t.tokenizer with
      | none => (.ok (), [.pushModelCall])
      | some _ => (env.pushTokenizer, [.pushModelCall, .pushTokenizerCall])

/-- The assignments at the top of the `try` body of `fine_tune` (base.py
lines 213-225): record the call's parameters on the instance.  The
datasets, model and tokenizer slots are left untouched here. -/
def initTuner (p : Params) (t0 : Tuner) : Tuner :=
  { t0 with
    model_name := p.model_name
    tokenizer_name := p.tokenizer_name
    model_class := p.model_class
    tokenizer_class := p.tokenizer_class
    evalFlag := p.evalFlag
    hf_repo_id := p.hf_repo_id }

/-- The `eval_dataset` argument of the `Trainer` constructor (base.py line
244): `self.eval_dataset if self.eval else None`. -/
def evalDsArg (t : Tuner) : Option Nat :=
  if t.evalFlag then t.eval_dataset else none

/-- Lines 233-257 of `fine_tune`: build `TrainingArguments`, construct the
`Trainer`, train, save, evaluate when `self.eval` is set, and publish to
the hub when `self.hf_repo_id` is truthy. -/
def fine_tune_rest (t3 : Tuner) (env : Env) : Except String Unit × List Event :=
  match env.trainingArgsInit with
  | .error e => (.error e, [])
  | .ok _ =>
    match env.trainerInit with
    | .error e => (.error e, [.trainerConstructed (evalDsArg t3)])
    | .ok _ =>
      match env.trainResult with
      | .error e => (.error e, [.trainerConstructed (evalDsArg t3), .trainCall])
      | .ok _ =>
        match env.saveResult with
        | .error e =>
          (.error e, [.trainerConstructed (evalDsArg t3), .trainCall, .saveModelCall])
        | .ok _ =>
          if t3.evalFlag then
            match env.evaluateResult with
            | .error e =>
              (.error e,
               [.trainerConstructed (evalDsArg t3), .trainCall, .saveModelCall, .evaluateCall])
            | .ok _ =>
              if truthy t3.hf_repo_id then
                ((upload_to_hf_hub t3 env).1,
                 [.trainerConstructed (evalDsArg t3), .trainCall, .saveModelCall,
                  .evaluateCall] ++ (upload_to_hf_hub t3 env).2)
              else
                (.ok (),
                 [.trainerConstructed (evalDsArg t3), .trainCall, .saveModelCall, .evaluateCall])
          else
            if truthy t3.hf_repo_id then
              ((upload_to_hf_hub t3 env).1,
               [.trainerConstructed (evalDsArg t3), .trainCall, .saveModelCall] ++
                 (upload_to_hf_hub t3 env).2)
            else
              (.ok (), [.trainerConstructed (evalDsArg t3), .trainCall, .saveModelCall])

/-- The `try` body of `fine_tune` (base.py lines 212-257): record the
parameters on the instance, load models, preprocess data, then run the
remainder of the pipeline. -/
def fine_tune_body (p : Params) (t0 : Tuner) (env : Env) :
    Except String Unit × List Event :=
  match load_models (initTuner p t0) env with
  | (.error e, tr1) => (.error e, tr1)
  | (.ok t2, tr1) =>
    match preprocess_data t2 env with
    | (.error e, tr2) => (.error e, tr1 ++ tr2)
    | (.ok t3, tr2) =>
      ((fine_tune_rest t3 env).1, tr1 ++ tr2 ++ (fine_tune_rest t3 env).2)

/-- `HuggingFaceFineTuner.fine_tune` (base.py lines 181-262): run the `try`
body; on an exception write `{"success": False, "exception": str(e)}` to
the state store and re-raise (lines 258-261); on success fall through to
the write of `{"success": True}` at line 262, outside the handler.  If a
`set_state` call itself raises, that exception propagates instead. -/
def fine_tune (p : Params) (t0 : Tuner) (env : Env) :
    Except String Unit × List Event :=
  match fine_tune_body p t0 env with
  | (.error e, tr) =>
    match env.setState { success := false, exception := some e } with
    | .error e2 =>
      (.error e2, tr ++ [.setStateCall { success := false, exception := some e }])
    | .ok _ =>
      (.error e, tr ++ [.setStateCall { success := false, exception := some e }])
  | (.ok _, tr) =>
    match env.setState { success := true, exception := none } with
    | .error e2 =>
      (.error e2, tr ++ [.setStateCall { success := true, exception := none }])
    | .ok _ =>
      (.ok (), tr ++ [.setStateCall { success := true, exception := none }])

/-- Recognise `set_state` calls in a trace. -/
def isSetState : Event → Bool
  | .setStateCall _ => true
  | _ => false

/-- A fresh bolt instance, as left by `__init__` (base.py lines 63-76). -/
def tunerInit : Tuner := {}

/-- A concrete parameter set for witness runs: a remote model name, one
epoch, batch size eight, everything else left at the source defaults. -/
def paramsOk : Params :=
  { model_name := "bert-base"
    tokenizer_name := "bert-base"
    num_train_epochs := 1
    per_device_train_batch_size := 8 }

/-- The same parameters with the special-cased `"local"` model name. -/
def paramsLocal : Params :=
  { paramsOk with model_name := "local" }

/-- A witness environment in which every delegated operation succeeds and
the input storage base path is `"/data"`. -/
def envAllOk : Env :=
  { inputPath := "/data"
    copyFromRemote := .ok ()
    loadDataset := fun _ => .ok 0
    modelFromPretrained := fun _ => .ok 1
    tokenizerFromPretrained := fun _ => .ok 2
    outputFolder := "/out"
    trainingArgsInit := .ok ()
    trainerInit := .ok ()
    trainResult := .ok ()
    saveResult := .ok ()
    evaluateResult := .ok ()
    pushModel := .ok ()
    pushTokenizer := .ok ()
    setState := fun _ => .ok () }

/-- An environment in which model loading raises an exception whose
`str(e)` is the empty string, as `ValueError()` does in Python. -/
def envEmptyError : Env :=
  { envAllOk with modelFromPretrained := fun _ => .error "" }

/-- An environment in which training raises an exception with message
`"boom"`. -/
def envTrainFails : Env :=
  { envAllOk with trainResult := .error "boom" }

/-- An environment in which the state store itself raises on the success
record but accepts failure records. -/
def envSuccessWriteFails : Env :=
  { envAllOk with
    setState := fun r => if r.success then .error "state store down" else .ok () }

/-! ## Helper lemmas -/

/-- A ratio of naturals `k / n` with `k ≤ n` lies in `[0, 1]` (also when
`n = 0`, where rational division by zero yields 0). -/
lemma ratio_unit_interval (k n : Nat) (h : k ≤ n) :
    0 ≤ (k : ℚ) / (n : ℚ) ∧ (k : ℚ) / (n : ℚ) ≤ 1 := by
  rcases Nat.eq_zero_or_pos n with hn | hn
  · subst hn
    interval_cases k
    simp
  · constructor
    · positivity
    · rw [div_le_one (by exact_mod_cast hn)]
      exact_mod_cast h

/-- The harmonic-mean combination `2PR/(P+R)` of two values in `[0,1]`
stays in `[0,1]` (0 when `P + R = 0`). -/
lemma harmonic_unit_interval (P R : ℚ) (hP0 : 0 ≤ P) (hP1 : P ≤ 1)
    (hR0 : 0 ≤ R) (hR1 : R ≤ 1) :
    0 ≤ 2 * P * R / (P + R) ∧ 2 * P * R / (P + R) ≤ 1 := by
  by_cases hPR : P + R = 0
  · simp [hPR]
  · have hpos : 0 < P + R := lt_of_le_of_ne (by positivity) (Ne.symm hPR)
    constructor
    · positivity
    · rw [div_le_one hpos]
      nlinarith [mul_nonneg (sub_nonneg.mpr hP1) hR0, mul_nonneg (sub_nonneg.mpr hR1) hP0]

/-- Joining two relative components of different lengths onto the same base
gives different paths. -/
lemma os_path_join_ne_of_length_ne (a b c : String)
    (hb : b.data.head? ≠ some (Char.ofNat 47)) (hc : c.data.head? ≠ some (Char.ofNat 47))
    (hbc : b.length ≠ c.length) :
    os_path_join a b ≠ os_path_join a c := by
  unfold os_path_join
  rw [if_neg hb, if_neg hc]
  by_cases ha : a.data = [] ∨ a.data.getLast? = some (Char.ofNat 47)
  · rw [if_pos ha, if_pos ha]
    intro h
    have := congrArg String.length h
    simp [String.length_append] at this
    exact hbc this
  · rw [if_neg ha, if_neg ha]
    intro h
    have := congrArg String.length h
    simp [String.length_append] at this
    exact hbc this

/-- The `{path}/train` and `{path}/eval` dataset paths never coincide. -/
lemma train_path_ne_eval_path (a : String) :
    os_path_join a "train" ≠ os_path_join a "eval" := by
  apply os_path_join_ne_of_length_ne <;> decide

/-- Every event of a `load_models` run is a `from_pretrained` call. -/
lemma mem_load_models (t : Tuner) (env : Env) (e : Event)
    (he : e ∈ (load_models t env).2) :
    e = .modelFromPretrained (modelSrc t env) ∨
    e = .tokenizerFromPretrained (tokenizerSrc t env) := by
  unfold load_models at he
  repeat' split at he
  all_goals simp_all

/-- Every event of a `preprocess_data` run is the remote copy or a dataset
load, and the `{path}/eval` load happens only when the flag is set. -/
lemma mem_preprocess_data (t : Tuner) (env : Env) (e : Event)
    (he : e ∈ (preprocess_data t env).2) :
    e = .copyFromRemote ∨
    e = .loadDatasetCall (os_path_join env.inputPath "train") ∨
    (t.evalFlag = true ∧ e = .loadDatasetCall (os_path_join env.inputPath "eval")) := by
  unfold preprocess_data at he
  repeat' split at he
  all_goals simp_all
  all_goals tauto

/-- Every event of an `upload_to_hf_hub` run is a push. -/
lemma mem_upload_to_hf_hub (t : Tuner) (env : Env) (e : Event)
    (he : e ∈ (upload_to_hf_hub t env).2) :
    e = .pushModelCall ∨ e = .pushTokenizerCall := by
  unfold upload_to_hf_hub at he
  repeat' split at he
  all_goals simp_all

/-- `load_models` only fills the model and tokenizer slots. -/
lemma load_models_ok (t t' : Tuner) (env : Env)
    (h : (load_models t env).1 = .ok t') :
    t'.evalFlag = t.evalFlag ∧ t'.hf_repo_id = t.hf_repo_id := by
  unfold load_models at h
  repeat' split at h
  all_goals simp_all
  all_goals subst h
  all_goals simp

/-- `preprocess_data` only fills the dataset slots. -/
lemma preprocess_data_ok (t t' : Tuner) (env : Env)
    (h : (preprocess_data t env).1 = .ok t') :
    t'.evalFlag = t.evalFlag ∧ t'.hf_repo_id = t.hf_repo_id := by
  unfold preprocess_data at h
  repeat' split at h
  all_goals simp_all
  all_goals subst h
  all_goals simp

/-- Every event of the trainer/publish phase is the trainer construction
(with a `None` eval dataset whenever the flag is unset), a train/save
call, an `evaluate()` call only when the flag is set, or a push only when
the repository id is truthy. -/
lemma mem_fine_tune_rest (t3 : Tuner) (env : Env) (e : Event)
    (he : e ∈ (fine_tune_rest t3 env).2) :
    (∃ d, e = .trainerConstructed d ∧ (t3.evalFlag = false → d = none)) ∨
    e = .trainCall ∨ e = .saveModelCall ∨
    (t3.evalFlag = true ∧ e = .evaluateCall) ∨
    (truthy t3.hf_repo_id = true ∧ (e = .pushModelCall ∨ e = .pushTokenizerCall)) := by
  unfold fine_tune_rest at he
  repeat' split at he
  all_goals
    simp only [List.mem_append, List.mem_cons, List.not_mem_nil, or_false] at he
  all_goals try casesm* _ ∨ _
  all_goals
    first
    | (simp_all [evalDsArg]; done)
    | (rcases mem_upload_to_hf_hub t3 env e (by assumption) with h | h <;> simp_all)

/-- Characterisation of the events the `try` body of `fine_tune` can emit:
the eval-path dataset load and `evaluate()` appear only when `eval` is
set, the trainer's `eval_dataset` argument is `None` whenever `eval` is
unset, pushes appear only when `hf_repo_id` is truthy, and no `set_state`
write occurs inside the body. -/
lemma mem_fine_tune_body (p : Params) (t0 : Tuner) (env : Env) (e : Event)
    (he : e ∈ (fine_tune_body p t0 env).2) :
    e = .copyFromRemote ∨
    (∃ s, e = .modelFromPretrained s) ∨
    (∃ s, e = .tokenizerFromPretrained s) ∨
    e = .loadDatasetCall (os_path_join env.inputPath "train") ∨
    (p.evalFlag = true ∧ e = .loadDatasetCall (os_path_join env.inputPath "eval")) ∨
    (∃ d, e = .trainerConstructed d ∧ (p.evalFlag = false → d = none)) ∨
    e = .trainCall ∨ e = .saveModelCall ∨
    (p.evalFlag = true ∧ e = .evaluateCall) ∨
    (truthy p.hf_repo_id = true ∧ (e = .pushModelCall ∨ e = .pushTokenizerCall)) := by
  unfold fine_tune_body at he
  split at he
  case h_1 e1 tr1 heq1 =>
    rcases mem_load_models (initTuner p t0) env e (by rw [heq1]; exact he) with h | h
    · exact Or.inr (Or.inl ⟨_, h⟩)
    · exact Or.inr (Or.inr (Or.inl ⟨_, h⟩))
  case h_2 t2 tr1 heq1 =>
    have hok1 := load_models_ok (initTuner p t0) t2 env (by rw [heq1])
    split at he
    case h_1 e2 tr2 heq2 =>
      rcases List.mem_append.mp he with h1 | h2
      · rcases mem_load_models (initTuner p t0) env e (by rw [heq1]; exact h1) with h | h
        · exact Or.inr (Or.inl ⟨_, h⟩)
        · exact Or.inr (Or.inr (Or.inl ⟨_, h⟩))
      · rcases mem_preprocess_data t2 env e (by rw [heq2]; exact h2) with h | h | ⟨hev, h⟩
        · exact Or.inl h
        · exact Or.inr (Or.inr (Or.inr (Or.inl h)))
        · refine Or.inr (Or.inr (Or.inr (Or.inr (Or.inl ⟨?_, h⟩))))
          rw [← show (initTuner p t0).evalFlag = p.evalFlag from rfl, ← hok1.1]
          exact hev
    case h_2 t3 tr2 heq2 =>
      have hok2 := preprocess_data_ok t2 t3 env (by rw [heq2])
      have hev3 : t3.evalFlag = p.evalFlag := by rw [hok2.1, hok1.1]; rfl
      have hrepo3 : t3.hf_repo_id = p.hf_repo_id := by rw [hok2.2, hok1.2]; rfl
      rcases List.mem_append.mp he with h12 | h3
      · rcases List.mem_append.mp h12 with h1 | h2
        · rcases mem_load_models (initTuner p t0) env e (by rw [heq1]; exact h1) with h | h
          · exact Or.inr (Or.inl ⟨_, h⟩)
          · exact Or.inr (Or.inr (Or.inl ⟨_, h⟩))
        · rcases mem_preprocess_data t2 env e (by rw [heq2]; exact h2) with h | h | ⟨hev, h⟩
          · exact Or.inl h
          · exact Or.inr (Or.inr (Or.inr (Or.inl h)))
          · refine Or.inr (Or.inr (Or.inr (Or.inr (Or.inl ⟨?_, h⟩))))
            rw [← show (initTuner p t0).evalFlag = p.evalFlag from rfl, ← hok1.1]
            exact hev
      · rcases mem_fine_tune_rest t3 env e h3 with
          ⟨d, hd, himp⟩ | h | h | ⟨hev, h⟩ | ⟨htr, h⟩
        · refine Or.inr (Or.inr (Or.inr (Or.inr (Or.inr (Or.inl ⟨d, hd, ?_⟩)))))
          intro hpe
          exact himp (by rw [hev3, hpe])
        · exact Or.inr (Or.inr (Or.inr (Or.inr (Or.inr (Or.inr (Or.inl h))))))
        · exact Or.inr (Or.inr (Or.inr (Or.inr (Or.inr (Or.inr (Or.inr (Or.inl h)))))))
        · refine Or.inr (Or.inr (Or.inr (Or.inr (Or.inr (Or.inr (Or.inr (Or.inr (Or.inl
            ⟨?_, h⟩))))))))
          rw [← hev3]; exact hev
        · refine Or.inr (Or.inr (Or.inr (Or.inr (Or.inr (Or.inr (Or.inr (Or.inr (Or.inr
            ⟨?_, h⟩))))))))
          rw [← hrepo3]; exact htr

/-- No event of the `try` body is a `set_state` write. -/
lemma fine_tune_body_no_setState (p : Params) (t : Tuner) (env : Env) (r : StateRecord) :
    Event.setStateCall r ∉ (fine_tune_body p t env).2 := by
  intro ha
  rcases mem_fine_tune_body p t env _ ha with
    h | ⟨s, h⟩ | ⟨s, h⟩ | h | ⟨_, h⟩ | ⟨d, h, _⟩ | h | h | ⟨_, h⟩ | ⟨_, h | h⟩ <;>
    simp at h

/-- Filtering the body trace for `set_state` writes yields nothing. -/
lemma fine_tune_body_filter_setState (p : Params) (t : Tuner) (env : Env) :
    (fine_tune_body p t env).2.filter isSetState = [] := by
  rw [List.filter_eq_nil_iff]
  intro a ha
  rcases mem_fine_tune_body p t env a ha with
    h | ⟨s, h⟩ | ⟨s, h⟩ | h | ⟨_, h⟩ | ⟨d, h, _⟩ | h | h | ⟨_, h⟩ | ⟨_, h | h⟩ <;>
    subst h <;> simp [isSetState]

/-- A full `fine_tune` trace is the body trace followed by exactly one
`set_state` write. -/
lemma fine_tune_trace_shape (p : Params) (t : Tuner) (env : Env) :
    ∃ r : StateRecord,
      (fine_tune p t env).2 = (fine_tune_body p t env).2 ++ [.setStateCall r] := by
  unfold fine_tune
  rcases h : fine_tune_body p t env with ⟨r0, tr⟩
  rcases r0 with e | u <;> dsimp only <;> split <;> exact ⟨_, rfl⟩

/-- `accuracy_score` lies in `[0, 1]`. -/
lemma accuracy_score_unit (y_true y_pred : List Nat) :
    0 ≤ accuracy_score y_true y_pred ∧ accuracy_score y_true y_pred ≤ 1 := by
  have hk : ((y_true.zip y_pred).countP fun q => q.1 == q.2) ≤ y_true.length := by
    refine le_trans (List.countP_le_length _) ?_
    rw [List.length_zip]
    exact Nat.min_le_left _ _
  simpa [accuracy_score] using ratio_unit_interval _ _ hk

/-- `precision_score` lies in `[0, 1]`. -/
lemma precision_score_unit (y_true y_pred : List Nat) :
    0 ≤ precision_score y_true y_pred ∧ precision_score y_true y_pred ≤ 1 := by
  have h := ratio_unit_interval (countTP y_true y_pred)
    (countTP y_true y_pred + countFP y_true y_pred) (Nat.le_add_right _ _)
  rw [Nat.cast_add] at h
  simpa [precision_score] using h

/-- `recall_score` lies in `[0, 1]`. -/
lemma recall_score_unit (y_true y_pred : List Nat) :
    0 ≤ recall_score y_true y_pred ∧ recall_score y_true y_pred ≤ 1 := by
  have h := ratio_unit_interval (countTP y_true y_pred)
    (countTP y_true y_pred + countFN y_true y_pred) (Nat.le_add_right _ _)
  rw [Nat.cast_add] at h
  simpa [recall_score] using h

/-- `f1_score` lies in `[0, 1]`. -/
lemma f1_score_unit (y_true y_pred : List Nat) :
    0 ≤ f1_score y_true y_pred ∧ f1_score y_true y_pred ≤ 1 := by
  have hp := precision_score_unit y_true y_pred
  have hr := recall_score_unit y_true y_pred
  simpa [f1_score] using
    harmonic_unit_interval (precision_score y_true y_pred) (recall_score y_true y_pred)
      hp.1 hp.2 hr.1 hr.2

/-! ## Claim theorems -/

/-- C3: on the prediction matrix `[[0.9,0.1],[0.2,0.8],[0.3,0.7]]` and the
label vector `[0,1,0]`, `compute_metrics` derives the argmax predictions
`[0,1,1]` and returns accuracy `2/3`. -/
theorem compute_metrics_argmax_and_accuracy :
    ([[(9 : ℚ)/10, 1/10], [2/10, 8/10], [3/10, 7/10]].map argmax = [0, 1, 1]) ∧
    (compute_metrics [[(9 : ℚ)/10, 1/10], [2/10, 8/10], [3/10, 7/10]] [0, 1, 0]).accuracy
      = 2/3 := by
  constructor
  · norm_num [argmax, argmaxAux]
  · norm_num [compute_metrics, accuracy_score, argmax, argmaxAux, List.countP_cons]

/-- C7: for every prediction matrix with two columns and every label vector
of matching length, the accuracy, precision, recall and F1 returned by
`compute_metrics` all lie in `[0, 1]`. -/
theorem compute_metrics_bounds (predictions : List (List ℚ)) (labels : List Nat)
    (hcols : ∀ row ∈ predictions, row.length = 2)
    (hlen : predictions.length = labels.length) :
    (0 ≤ (compute_metrics predictions labels).accuracy ∧
      (compute_metrics predictions labels).accuracy ≤ 1) ∧
    (0 ≤ (compute_metrics predictions labels).precision ∧
      (compute_metrics predictions labels).precision ≤ 1) ∧
    (0 ≤ (compute_metrics predictions labels).«recall» ∧
      (compute_metrics predictions labels).«recall» ≤ 1) ∧
    (0 ≤ (compute_metrics predictions labels).f1 ∧
      (compute_metrics predictions labels).f1 ≤ 1) := by
  refine ⟨?_, ?_, ?_, ?_⟩ <;> dsimp only [compute_metrics]
  · exact accuracy_score_unit _ _
  · exact precision_score_unit _ _
  · exact recall_score_unit _ _
  · exact f1_score_unit _ _

/-- Witness for C7 at a concrete two-column matrix and matching labels. -/
theorem compute_metrics_bounds_witness :
    (∀ row ∈ [[(9 : ℚ)/10, 1/10], [2/10, 8/10]], row.length = 2) ∧
    (0 ≤ (compute_metrics [[(9 : ℚ)/10, 1/10], [2/10, 8/10]] [0, 1]).f1 ∧
      (compute_metrics [[(9 : ℚ)/10, 1/10], [2/10, 8/10]] [0, 1]).f1 ≤ 1) :=
  ⟨by simp, (compute_metrics_bounds _ _ (by simp) rfl).2.2.2⟩

/-- C8: when the model (or tokenizer) name is `"local"`, the identifier
handed to `from_pretrained` is `os.path.join(input.get(), "/model")`, which
equals the absolute path `"/model"` for every base path, so the loaded
location is independent of the input storage base path. -/
theorem local_name_loads_from_absolute_model_path :
    (∀ s : String, os_path_join s "/model" = "/model") ∧
    ∀ (t : Tuner) (env : Env), pyLower t.model_name = "local" →
      (load_models t env).2.head? = some (.modelFromPretrained "/model") := by
  have habs : ∀ s : String, os_path_join s "/model" = "/model" := by
    intro s
    unfold os_path_join
    rw [if_pos (by decide)]
  refine ⟨habs, ?_⟩
  intro t env h
  have hsrc : modelSrc t env = "/model" := by
    unfold modelSrc
    rw [if_pos h, habs]
  unfold load_models
  rw [hsrc]
  repeat' split
  all_goals rfl

/-- Witness for C8 at base path `"/data"` and a `"local"` model name. -/
theorem local_name_loads_from_absolute_model_path_witness :
    os_path_join "/data" "/model" = "/model" ∧
    (load_models { tunerInit with model_name := "local" } envAllOk).2.head? =
      some (.modelFromPretrained "/model") :=
  ⟨local_name_loads_from_absolute_model_path.1 "/data",
    local_name_loads_from_absolute_model_path.2 _ envAllOk (by decide)⟩

/-- C2 (code defect): running `fine_tune` with model name `"local"` and
input base path `"/data"` hands `from_pretrained` the absolute path
`"/model"`, not the `"/data/model"` subpath under the base path. -/
theorem local_model_load_ignores_base_path :
    envAllOk.inputPath = "/data" ∧
    Event.modelFromPretrained "/model" ∈ (fine_tune paramsLocal tunerInit envAllOk).2 ∧
    Event.modelFromPretrained "/data/model" ∉ (fine_tune paramsLocal tunerInit envAllOk).2 ∧
    os_path_join "/data" "/model" = "/model" :=
  ⟨rfl, by decide, by decide, by decide⟩

/-- C1 (counterexample to the non-emptiness part): an exception whose
`str(e)` is empty — as raised by `ValueError()` — during model loading
yields the single failure write `{success: false, exception: ""}` whose
exception string is empty. -/
theorem failure_write_exception_can_be_empty :
    (fine_tune paramsOk tunerInit envEmptyError).1 = .error "" ∧
    (fine_tune paramsOk tunerInit envEmptyError).2.filter isSetState =
      [.setStateCall { success := false, exception := some "" }] ∧
    ("" : String).length = 0 :=
  ⟨rfl, by decide, rfl⟩

/-- C1 (amended): if the `try` body of `fine_tune` raises an exception with
message `e` and the failure-record write itself succeeds, then the state
store receives exactly one write, `{success: false, exception: e}` (the
string `e` may be empty), and the original exception propagates to the
caller. -/
theorem fine_tune_failure_single_write_and_reraise (p : Params) (t : Tuner) (env : Env)
    (e : String)
    (hb : (fine_tune_body p t env).1 = .error e)
    (hs : env.setState { success := false, exception := some e } = .ok ()) :
    (fine_tune p t env).1 = .error e ∧
    (fine_tune p t env).2.filter isSetState =
      [.setStateCall { success := false, exception := some e }] := by
  have hfil := fine_tune_body_filter_setState p t env
  unfold fine_tune
  rcases h : fine_tune_body p t env with ⟨r0, tr⟩
  rw [h] at hb hfil
  rcases r0 with e' | u
  · have he' : e' = e := by simpa using hb
    subst he'
    dsimp only
    rw [hs]
    dsimp only
    refine ⟨rfl, ?_⟩
    rw [List.filter_append]
    change tr.filter isSetState = [] at hfil
    rw [hfil]
    simp [isSetState]
  · simp at hb

/-- Witness for the amended C1: a training failure with message `"boom"`
produces exactly one failure write and re-raises. -/
theorem fine_tune_failure_single_write_and_reraise_witness :
    (fine_tune_body paramsOk tunerInit envTrainFails).1 = .error "boom" ∧
    (fine_tune paramsOk tunerInit envTrainFails).1 = .error "boom" ∧
    (fine_tune paramsOk tunerInit envTrainFails).2.filter isSetState =
      [.setStateCall { success := false, exception := some "boom" }] :=
  ⟨rfl,
    (fine_tune_failure_single_write_and_reraise paramsOk tunerInit envTrainFails
      "boom" rfl rfl).1,
    (fine_tune_failure_single_write_and_reraise paramsOk tunerInit envTrainFails
      "boom" rfl rfl).2⟩

/-- C6: every run of `fine_tune` that returns normally made exactly one
`set_state` write, and that write is `{success: true}`. -/
theorem fine_tune_success_single_write (p : Params) (t : Tuner) (env : Env)
    (h : (fine_tune p t env).1 = .ok ()) :
    (fine_tune p t env).2.filter isSetState =
      [.setStateCall { success := true, exception := none }] := by
  have hfil := fine_tune_body_filter_setState p t env
  unfold fine_tune at h ⊢
  rcases hb : fine_tune_body p t env with ⟨r0, tr⟩
  rw [hb] at h hfil
  rcases r0 with e' | u
  · dsimp only at h
    split at h <;> simp at h
  · dsimp only at h ⊢
    split at h
    · simp at h
    · dsimp only
      rw [List.filter_append]
      change tr.filter isSetState = [] at hfil
      rw [hfil]
      simp [isSetState]

/-- Witness for C6: the all-success environment yields exactly the
`{success: true}` write. -/
theorem fine_tune_success_single_write_witness :
    (fine_tune paramsOk tunerInit envAllOk).2.filter isSetState =
      [.setStateCall { success := true, exception := none }] :=
  fine_tune_success_single_write paramsOk tunerInit envAllOk rfl

/-- C9: the success-path `set_state` call sits outside the exception
handler — if it raises after an otherwise successful run, its exception
propagates to the caller and no failure record is ever written. -/
theorem success_write_exception_propagates (p : Params) (t : Tuner) (env : Env)
    (e : String)
    (hb : (fine_tune_body p t env).1 = .ok ())
    (hs : env.setState { success := true, exception := none } = .error e) :
    (fine_tune p t env).1 = .error e ∧
    ∀ r : StateRecord, r.success = false →
      Event.setStateCall r ∉ (fine_tune p t env).2 := by
  unfold fine_tune
  rcases h : fine_tune_body p t env with ⟨r0, tr⟩
  rw [h] at hb
  rcases r0 with e' | u
  · simp at hb
  · dsimp only
    rw [hs]
    dsimp only
    refine ⟨rfl, ?_⟩
    intro r hr hmem
    rcases List.mem_append.mp hmem with hm | hm
    · exact fine_tune_body_no_setState p t env r (by rw [h]; exact hm)
    · simp only [List.mem_singleton, Event.setStateCall.injEq] at hm
      rw [hm] at hr
      simp at hr

/-- Witness for C9: a state store that rejects the success record makes
`fine_tune` propagate that exception with no failure write in the trace. -/
theorem success_write_exception_propagates_witness :
    (fine_tune paramsOk tunerInit envSuccessWriteFails).1 = .error "state store down" ∧
    ∀ r : StateRecord, r.success = false →
      Event.setStateCall r ∉ (fine_tune paramsOk tunerInit envSuccessWriteFails).2 :=
  success_write_exception_propagates paramsOk tunerInit envSuccessWriteFails
    "state store down" rfl rfl

/-- C4: with `eval=False`, no run of `fine_tune` ever calls the dataset
loader on the `{path}/eval` subpath or the trainer's `evaluate()`. -/
theorem no_eval_when_disabled (p : Params) (t : Tuner) (env : Env)
    (h : p.evalFlag = false) :
    Event.evaluateCall ∉ (fine_tune p t env).2 ∧
    Event.loadDatasetCall (os_path_join env.inputPath "eval") ∉ (fine_tune p t env).2 := by
  have hne := train_path_ne_eval_path env.inputPath
  have hne' := hne.symm
  obtain ⟨r, htr⟩ := fine_tune_trace_shape p t env
  rw [htr]
  constructor <;> intro hmem <;> rcases List.mem_append.mp hmem with hm | hm
  · rcases mem_fine_tune_body p t env _ hm with
      h' | ⟨s, h'⟩ | ⟨s, h'⟩ | h' | ⟨hf, h'⟩ | ⟨d, h', _⟩ | h' | h' | ⟨hf, h'⟩ |
      ⟨_, h' | h'⟩ <;> simp_all
  · simp at hm
  · rcases mem_fine_tune_body p t env _ hm with
      h' | ⟨s, h'⟩ | ⟨s, h'⟩ | h' | ⟨hf, h'⟩ | ⟨d, h', _⟩ | h' | h' | ⟨hf, h'⟩ |
      ⟨_, h' | h'⟩ <;> simp_all
  · simp at hm

/-- Witness for C4: the all-success run with the default `eval=False`
parameters performs neither eval activity. -/
theorem no_eval_when_disabled_witness :
    Event.evaluateCall ∉ (fine_tune paramsOk tunerInit envAllOk).2 ∧
    Event.loadDatasetCall (os_path_join envAllOk.inputPath "eval") ∉
      (fine_tune paramsOk tunerInit envAllOk).2 :=
  no_eval_when_disabled paramsOk tunerInit envAllOk rfl

/-- C5: with `hf_repo_id` unset (`None`), no run of `fine_tune` ever pushes
the model or the tokenizer to the hub. -/
theorem no_publish_when_repo_unset (p : Params) (t : Tuner) (env : Env)
    (h : p.hf_repo_id = none) :
    Event.pushModelCall ∉ (fine_tune p t env).2 ∧
    Event.pushTokenizerCall ∉ (fine_tune p t env).2 := by
  obtain ⟨r, htr⟩ := fine_tune_trace_shape p t env
  rw [htr]
  constructor <;> intro hmem <;> rcases List.mem_append.mp hmem with hm | hm
  · rcases mem_fine_tune_body p t env _ hm with
      h' | ⟨s, h'⟩ | ⟨s, h'⟩ | h' | ⟨hf, h'⟩ | ⟨d, h', _⟩ | h' | h' | ⟨hf, h'⟩ |
      ⟨htru, h' | h'⟩ <;> simp_all [truthy]
  · simp at hm
  · rcases mem_fine_tune_body p t env _ hm with
      h' | ⟨s, h'⟩ | ⟨s, h'⟩ | h' | ⟨hf, h'⟩ | ⟨d, h', _⟩ | h' | h' | ⟨hf, h'⟩ |
      ⟨htru, h' | h'⟩ <;> simp_all [truthy]
  · simp at hm

/-- Witness for C5: the all-success run with the default `hf_repo_id=None`
performs no push. -/
theorem no_publish_when_repo_unset_witness :
    Event.pushModelCall ∉ (fine_tune paramsOk tunerInit envAllOk).2 ∧
    Event.pushTokenizerCall ∉ (fine_tune paramsOk tunerInit envAllOk).2 :=
  no_publish_when_repo_unset paramsOk tunerInit envAllOk rfl

/-- C10: with `eval=False`, every `Trainer` construction in a `fine_tune`
run passes `eval_dataset=None`, whatever the instance's `eval_dataset`
attribute holds. -/
theorem trainer_eval_dataset_arg_none (p : Params) (t : Tuner) (env : Env)
    (h : p.evalFlag = false) :
    ∀ d : Option Nat, Event.trainerConstructed d ∈ (fine_tune p t env).2 → d = none := by
  intro d hmem
  obtain ⟨r, htr⟩ := fine_tune_trace_shape p t env
  rw [htr] at hmem
  rcases List.mem_append.mp hmem with hm | hm
  · rcases mem_fine_tune_body p t env _ hm with
      h' | ⟨s, h'⟩ | ⟨s, h'⟩ | h' | ⟨hf, h'⟩ | ⟨d', h', himp⟩ | h' | h' | ⟨hf, h'⟩ |
      ⟨_, h' | h'⟩ <;> simp_all
  · simp at hm

/-- Witness for C10: a run on an instance whose `eval_dataset` attribute is
stale (`some 7`) still constructs the trainer with `eval_dataset=None`. -/
theorem trainer_eval_dataset_arg_none_witness :
    Event.trainerConstructed none ∈
      (fine_tune paramsOk { tunerInit with eval_dataset := some 7 } envAllOk).2 ∧
    (none : Option Nat) = none :=
  ⟨by decide,
    trainer_eval_dataset_arg_none paramsOk { tunerInit with eval_dataset := some 7 }
      envAllOk rfl none (by decide)⟩

end HF
